import Mathlib

/-!
Shallow embedding of the game core of `shootinggame.py` (single-file pygame
arcade shooter).  Python floats are modelled as rationals (every concrete
value used below is exactly representable as an IEEE double, and the
operations involved are exact on them); pygame `Rect` coordinates are machine
integers, modelled as `Int`.  Python's `int(x)` conversion truncates toward
zero; `random.*` draws are passed in as explicit parameters.  Rendering,
fonts and the event loop's window handling are external collaborators: only
the display-mode *requests* issued by `toggle_fullscreen` are modelled (as a
`DisplayMode` field of a `Sys` state).
-/

/-- Config constant `WIDTH = 900`. -/
def WIDTH : Int := 900

/-- Config constant `HEIGHT = 600`. -/
def HEIGHT : Int := 600

/-- Config constant `PLAYER_SPEED = 450` (pixels per second). -/
def PLAYER_SPEED : ℚ := 450

/-- Config constant `BULLET_SPEED = 900`. -/
def BULLET_SPEED : ℚ := 900

/-- Config constant `FIRE_RATE = 0.16` (seconds between shots). -/
def FIRE_RATE : ℚ := 16/100

/-- Config constant `MAX_BULLETS = 40`. -/
def MAX_BULLETS : Nat := 40

/-- Config constant `ENEMY_SPAWN_TIME = 0.8`. -/
def ENEMY_SPAWN_TIME : ℚ := 8/10

/-- Python `int(q)` on a (rational-modelled) float: truncation toward zero.
`Rat` is stored in lowest terms with positive denominator, so truncating
division of numerator by denominator is exactly Python's `int()`. -/
def pyint (q : ℚ) : Int := q.num.tdiv q.den

/-- Source utility `clamp(x, a, b) = max(a, min(b, x))`. -/
def clamp (x a b : Int) : Int := max a (min b x)

/-- Replace the element at index `i` (in-place mutation of one pool slot). -/
def listModify (l : List α) (i : Nat) (f : α → α) : List α :=
  match l, i with
  | [], _ => []
  | x :: xs, 0 => f x :: xs
  | x :: xs, n+1 => x :: listModify xs n f

/-- pygame `Rect`: integer position and size. -/
structure Rect where
  x : Int
  y : Int
  w : Int
  h : Int
  deriving DecidableEq, Repr

/-- Accessor `rect.top`. -/
def Rect.top (r : Rect) : Int := r.y

/-- Accessor `rect.bottom = y + h`. -/
def Rect.bottom (r : Rect) : Int := r.y + r.h

/-- Accessor `rect.centerx = x + w // 2` (sizes are positive, so `tdiv` = floor). -/
def Rect.centerx (r : Rect) : Int := r.x + r.w.tdiv 2

/-- Assigning `rect.center = (cx, cy)`: pygame sets `x = cx - w // 2`,
`y = cy - h // 2`. -/
def Rect.setCenter (r : Rect) (cx cy : Int) : Rect :=
  { r with x := cx - r.w.tdiv 2, y := cy - r.h.tdiv 2 }

/-- pygame `a.colliderect(b)`: strict axis-aligned bounding-box overlap. -/
def Rect.colliderect (a b : Rect) : Bool :=
  decide (a.x < b.x + b.w ∧ a.x + a.w > b.x ∧ a.y < b.y + b.h ∧ a.y + a.h > b.y)

/-- The sampled key states `update` and the shooting logic read
(`pygame.key.get_pressed()` restricted to the keys the core consumes). -/
structure Keys where
  left : Bool
  a : Bool
  right : Bool
  d : Bool
  space : Bool
  up : Bool
  deriving DecidableEq, Repr

/-- Class `Bullet`: 6×14 sprite, `speed = BULLET_SPEED`, starts inactive. -/
structure Bullet where
  rect : Rect
  speed : ℚ
  active : Bool
  deriving DecidableEq, Repr

/-- Constructor `Bullet.__init__`: `get_rect()` of a fresh surface is at (0,0). -/
def Bullet.init : Bullet :=
  { rect := { x := 0, y := 0, w := 6, h := 14 }, speed := BULLET_SPEED, active := false }

/-- Method `Bullet.activate(x, y)`: recenter and mark active. -/
def Bullet.activate (b : Bullet) (x y : Int) : Bullet :=
  { b with rect := b.rect.setCenter x y, active := true }

/-- Method `Bullet.update(dt)`: inactive bullets are untouched; otherwise
`rect.y -= int(speed * dt)` and deactivate when `rect.bottom < 0`. -/
def Bullet.update (b : Bullet) (dt : ℚ) : Bullet :=
  if !b.active then b
  else
    let b := { b with rect := { b.rect with y := b.rect.y - pyint (b.speed * dt) } }
    if b.rect.bottom < 0 then { b with active := false } else b

/-- Class `Player`: 40×40 sprite centered at `(WIDTH//2, HEIGHT - 60)`,
`speed = PLAYER_SPEED`, `shoot_timer = 0`, `lives = 3`. -/
structure Player where
  size : Int
  rect : Rect
  speed : ℚ
  shoot_timer : ℚ
  lives : Int
  deriving DecidableEq, Repr

/-- Constructor `Player.__init__`: center (450, 540) gives `rect = (430, 520, 40, 40)`. -/
def Player.init : Player :=
  { size := 40, rect := { x := 430, y := 520, w := 40, h := 40 },
    speed := PLAYER_SPEED, shoot_timer := 0, lives := 3 }

/-- The signed horizontal velocity accumulated from the key flags. -/
def playerVx (keys : Keys) : Int :=
  (if keys.left || keys.a then -1 else 0) + (if keys.right || keys.d then 1 else 0)

/-- Method `Player.update(dt, keys)`: move by `int(vx * speed * dt)`, clamp x to
`[0, WIDTH - rect.width]`, decrease the cooldown timer floored at 0. -/
def Player.update (p : Player) (dt : ℚ) (keys : Keys) : Player :=
  let x := p.rect.x + pyint ((playerVx keys : ℚ) * p.speed * dt)
  { p with rect := { p.rect with x := clamp x 0 (WIDTH - p.rect.w) },
           shoot_timer := max 0 (p.shoot_timer - dt) }

/-- Class `Enemy`: square sprite of random size, random speed, `health = 1`,
starts inactive.  The constructor's random draws are parameters. -/
structure Enemy where
  size : Int
  rect : Rect
  speed : ℚ
  health : Int
  active : Bool
  deriving DecidableEq, Repr

/-- Constructor `Enemy.__init__` with its random draws
(`size ∈ [20,44]`, `speed ∈ [ENEMY_SPEED_MIN, ENEMY_SPEED_MAX]`) explicit. -/
def Enemy.init (size : Int) (speed : ℚ) : Enemy :=
  { size, rect := { x := 0, y := 0, w := size, h := size },
    speed, health := 1, active := false }

/-- Method `Enemy.spawn()` with its random draws explicit: `rx ∈ [0, WIDTH - size]`,
`ry ∈ [0, 200]`, a fresh `speed`; sets `health = 1` and activates. -/
def Enemy.spawn (e : Enemy) (rx ry : Int) (speed : ℚ) : Enemy :=
  { e with rect := { e.rect with x := rx, y := -e.size - ry },
           speed, health := 1, active := true }

/-- Method `Enemy.update(dt)`: inactive enemies are untouched; otherwise
`rect.y += int(speed * dt)` and deactivate when `rect.top > HEIGHT`. -/
def Enemy.update (e : Enemy) (dt : ℚ) : Enemy :=
  if !e.active then e
  else
    let e := { e with rect := { e.rect with y := e.rect.y + pyint (e.speed * dt) } }
    if e.rect.top > HEIGHT then { e with active := false } else e

/-- The random draws of `Star.reset`. -/
structure StarRnd where
  x : ℚ
  y : ℚ
  speed : ℚ
  size : Int
  alpha : Int
  deriving DecidableEq, Repr

/-- Class `Star`: float position, downward speed, size, opacity. -/
structure BgStar where
  x : ℚ
  y : ℚ
  speed : ℚ
  size : Int
  alpha : Int
  deriving DecidableEq, Repr

/-- Method `Star.reset`: re-randomize everything (draws passed explicitly). -/
def BgStar.reset (rnd : StarRnd) : BgStar :=
  { x := rnd.x, y := rnd.y, speed := rnd.speed, size := rnd.size, alpha := rnd.alpha }

/-- Method `Star.update(dt)`: `y += speed * dt` (float arithmetic, no truncation);
wrap by `reset()` when `y > HEIGHT`. -/
def BgStar.update (s : BgStar) (dt : ℚ) (rnd : StarRnd) : BgStar :=
  let s := { s with y := s.y + s.speed * dt }
  if s.y > (HEIGHT : ℚ) then BgStar.reset rnd else s

/-- Method `Pool.get()` on the bullet pool, returning the index of the slot handed
out together with the (possibly mutated) pool: linear scan for the first
inactive slot; fallback recycles slot 0, forcing it inactive first. -/
def poolGet (pool : List Bullet) : Nat × List Bullet :=
  match pool.findIdx? (fun b => !b.active) with
  | some i => (i, pool)
  | none => (0, listModify pool 0 (fun b => { b with active := false }))

/-- Method `Pool.active_list()`: the active bullets, recomputed from the pool. -/
def activeList (pool : List Bullet) : List Bullet := pool.filter (·.active)

/-- Number of active bullets in the pool. -/
def activeCount (pool : List Bullet) : Nat := pool.countP (·.active)

/-- The inner loop of the bullet–enemy collision pass for one bullet `b`:
`for e in self.enemies: if e.active and b.active and e.rect.colliderect(b.rect):
e.active = False; b.active = False; self.score += 10; break`.
Returns the bullet, the enemy list, and the score increment. -/
def resolveBulletEnemies (b : Bullet) (es : List Enemy) : Bullet × List Enemy × Int :=
  match es with
  | [] => (b, [], 0)
  | e :: rest =>
    if e.active && b.active && e.rect.colliderect b.rect then
      ({ b with active := false }, { e with active := false } :: rest, 10)
    else
      let r := resolveBulletEnemies b rest
      (r.1, e :: r.2.1, r.2.2)

/-- The bullet–enemy collision pass: `for b in self.bullets.active_list()`,
then the inner scan above.  Each bullet's flag is only touched by its own
iteration, so membership in the pre-computed `active_list()` snapshot equals
being active when the bullet is reached; the pass therefore folds down the
pool, skipping inactive slots. -/
def bulletEnemyPhase (bs : List Bullet) (es : List Enemy) (score : Int) :
    List Bullet × List Enemy × Int :=
  match bs with
  | [] => ([], es, score)
  | b :: rest =>
    if b.active then
      let r := resolveBulletEnemies b es
      let rec' := bulletEnemyPhase rest r.2.1 (score + r.2.2)
      (r.1 :: rec'.1, rec'.2.1, rec'.2.2)
    else
      let rec' := bulletEnemyPhase rest es score
      (b :: rec'.1, rec'.2.1, rec'.2.2)

/-- The enemy–player collision pass:
`for e in self.enemies: if e.active and e.rect.colliderect(self.player.rect):
e.active = False; self.player.lives -= 1; if self.player.lives <= 0:
self.game_over = True`.  Returns the enemy list, the player, and the
game-over flag. -/
def enemyPlayerPhase (es : List Enemy) (p : Player) (gover : Bool) :
    List Enemy × Player × Bool :=
  match es with
  | [] => ([], p, gover)
  | e :: rest =>
    if e.active && e.rect.colliderect p.rect then
      let p' := { p with lives := p.lives - 1 }
      let gover' := if p'.lives ≤ 0 then true else gover
      let r := enemyPlayerPhase rest p' gover'
      ({ e with active := false } :: r.1, r.2.1, r.2.2)
    else
      let r := enemyPlayerPhase rest p gover
      (e :: r.1, r.2.1, r.2.2)

/-- Loop body of `Game.spawn_enemy`: activate the first inactive enemy with
the given random draws; if every slot is active, change nothing. -/
def spawnFirstInactive (es : List Enemy) (rx ry : Int) (sp : ℚ) : List Enemy :=
  match es with
  | [] => []
  | e :: rest =>
    if !e.active then e.spawn rx ry sp :: rest
    else e :: spawnFirstInactive rest rx ry sp

/-- The whole `Game` state (`running` of the loop driver and the render-only
star field included; `screen` itself is external, see `Sys`). -/
structure Game where
  running : Bool
  fullscreen : Bool
  player : Player
  bullets : List Bullet
  enemies : List Enemy
  enemy_timer : ℚ
  score : Int
  paused : Bool
  game_over : Bool
  stars : List BgStar
  deriving DecidableEq, Repr

/-- Constructor `Game.__init__`: the 24 `Enemy()` constructor draws and the 80 `Star()`
draws are passed as explicit lists (one entry per construction). -/
def Game.init (eps : List (Int × ℚ)) (ss : List BgStar) : Game :=
  { running := true, fullscreen := false, player := Player.init,
    bullets := List.replicate MAX_BULLETS Bullet.init,
    enemies := eps.map (fun p => Enemy.init p.1 p.2),
    enemy_timer := 0, score := 0, paused := false, game_over := false,
    stars := ss }

/-- Method `Game.spawn_enemy()`. -/
def Game.spawn_enemy (g : Game) (rx ry : Int) (sp : ℚ) : Game :=
  { g with enemies := spawnFirstInactive g.enemies rx ry sp }

/-- Method `Game.shoot()`: `b = self.bullets.get();
b.activate(self.player.rect.centerx, self.player.rect.top - 6)`. -/
def Game.shoot (g : Game) : Game :=
  let r := poolGet g.bullets
  let f := fun (b : Bullet) => b.activate g.player.rect.centerx (g.player.rect.top - 6)
  { g with bullets := listModify r.2 r.1 f }

/-- The spawn-scheduling step of `Game.update`:
`self.enemy_timer += dt; if self.enemy_timer >= ENEMY_SPAWN_TIME:
self.enemy_timer = 0; self.spawn_enemy()`. -/
def Game.spawnPhase (g : Game) (dt : ℚ) (rx ry : Int) (sp : ℚ) : Game :=
  let t := g.enemy_timer + dt
  if t ≥ ENEMY_SPAWN_TIME then ({ g with enemy_timer := 0 }).spawn_enemy rx ry sp
  else { g with enemy_timer := t }

/-- Method `Game.update(dt, keys)`, with the spawn's random draws explicit.
Short-circuits when paused or over; then player movement, shooting,
bullet/enemy movement, spawn scheduling, and the two collision passes. -/
def Game.update (g : Game) (dt : ℚ) (keys : Keys) (rx ry : Int) (sp : ℚ) : Game :=
  if g.paused || g.game_over then g
  else
    let g := { g with player := g.player.update dt keys }
    let g :=
      if (keys.space || keys.up) && decide (g.player.shoot_timer ≤ 0) then
        ({ g with player := { g.player with shoot_timer := FIRE_RATE } }).shoot
      else g
    let g := { g with bullets := g.bullets.map (Bullet.update · dt) }
    let g := { g with enemies := g.enemies.map (Enemy.update · dt) }
    let g := g.spawnPhase dt rx ry sp
    let r := bulletEnemyPhase g.bullets g.enemies g.score
    let g := { g with bullets := r.1, enemies := r.2.1, score := r.2.2 }
    let r := enemyPlayerPhase g.enemies g.player g.game_over
    { g with enemies := r.1, player := r.2.1, game_over := r.2.2 }

/-- Method `Game.restart(): self.__init__()` — the new constructor draws are
explicit parameters; the previous state is discarded wholesale. -/
def Game.restart (_g : Game) (eps : List (Int × ℚ)) (ss : List BgStar) : Game :=
  Game.init eps ss

/-- The display mode last requested from `pygame.display.set_mode`. -/
inductive DisplayMode
  | windowed
  | fullscreen
  deriving DecidableEq, Repr

/-- Game state together with the external display's actual mode. -/
structure Sys where
  game : Game
  display : DisplayMode
  deriving DecidableEq, Repr

/-- Method `Game.toggle_fullscreen()`: flip the flag, then request the mode the
flag now indicates. -/
def Sys.toggle_fullscreen (s : Sys) : Sys :=
  let g := { s.game with fullscreen := !s.game.fullscreen }
  { game := g,
    display := if g.fullscreen then DisplayMode.fullscreen else DisplayMode.windowed }

/-- Method `Game.restart()` at the system level: `__init__` touches no display
state (it issues no `set_mode`), so the display keeps its mode. -/
def Sys.restart (s : Sys) (eps : List (Int × ℚ)) (ss : List BgStar) : Sys :=
  { game := s.game.restart eps ss, display := s.display }

/-- All-false key state (nothing pressed). -/
def keysNone : Keys := ⟨false, false, false, false, false, false⟩

/-- Key state with only the fire key (space) held. -/
def keysFire : Keys := ⟨false, false, false, false, true, false⟩

/-- A concrete active enemy overlapping the freshly constructed player. -/
def eOnPlayerA : Enemy :=
  { size := 30, rect := { x := 430, y := 520, w := 30, h := 30 },
    speed := 100, health := 1, active := true }

/-- A second concrete active enemy overlapping the freshly constructed player. -/
def eOnPlayerB : Enemy :=
  { size := 30, rect := { x := 450, y := 530, w := 30, h := 30 },
    speed := 100, health := 1, active := true }

/-- Concrete running game: player down to 1 life, two active enemies
overlapping the player, nothing else going on. -/
def gTwoHits : Game :=
  { running := true, fullscreen := false,
    player := { Player.init with lives := 1 },
    bullets := List.replicate 2 Bullet.init,
    enemies := [eOnPlayerA, eOnPlayerB],
    enemy_timer := 0, score := 0, paused := false, game_over := false,
    stars := [] }

/-- Concrete paused game with assorted non-default state. -/
def gPausedW : Game :=
  { running := true, fullscreen := false,
    player := { Player.init with lives := 2, shoot_timer := 1/10 },
    bullets := [{ Bullet.init with active := true }],
    enemies := [eOnPlayerA],
    enemy_timer := 1/2, score := 70, paused := true, game_over := false,
    stars := [] }

/-- Concrete game-over game with assorted non-default state. -/
def gOverW : Game :=
  { running := true, fullscreen := false,
    player := { Player.init with lives := 0 },
    bullets := [{ Bullet.init with active := true }],
    enemies := [eOnPlayerA],
    enemy_timer := 1/2, score := 50, paused := false, game_over := true,
    stars := [] }

/-- Key state with only the right-arrow key held. -/
def keysRight : Keys := ⟨false, false, true, false, false, false⟩

/-- Concrete game for the C6 witness: one enemy slot, already active,
accumulator about to cross the threshold. -/
def gSaturated : Game :=
  { gTwoHits with enemies := [eOnPlayerA], enemy_timer := 7/10 }

/-- Concrete game whose bullet pool has capacity 2 (both slots inactive),
for the pool-overflow scenario. -/
def gCap2 : Game :=
  { gTwoHits with player := Player.init, enemies := [] }

/-- Concrete pool: slot 0 active, slot 1 inactive. -/
def poolW1 : List Bullet := [{ Bullet.init with active := true }, Bullet.init]

/-- Concrete pool: both slots active. -/
def poolW2 : List Bullet :=
  [{ Bullet.init with active := true }, { Bullet.init with active := true }]

/-- A concrete mid-flight active bullet. -/
def bulletC2 : Bullet :=
  { rect := { x := 447, y := 507, w := 6, h := 14 },
    speed := BULLET_SPEED, active := true }

/-- A concrete star well inside the playfield. -/
def starW : BgStar := { x := 100, y := 100, speed := 50, size := 2, alpha := 200 }

/-- Concrete star-reset draws (contents irrelevant to the claims). -/
def rndW : StarRnd := { x := 0, y := 0, speed := 10, size := 1, alpha := 100 }

/-- The per-enemy condition of the enemy–player pass: active and
overlapping the player's rectangle. -/
def hitBy (p : Player) (e : Enemy) : Bool := e.active && e.rect.colliderect p.rect

/-- The per-enemy condition of the bullet–enemy scan for a given bullet:
active and overlapping the bullet's rectangle. -/
def hitsB (b : Bullet) (e : Enemy) : Bool := e.active && e.rect.colliderect b.rect

/-- A concrete active mid-flight bullet used in the collision scenario. -/
def bC1 : Bullet :=
  { rect := { x := 447, y := 500, w := 6, h := 14 },
    speed := BULLET_SPEED, active := true }

/-- A concrete active enemy overlapping `bC1` but not the player. -/
def eC1 : Enemy :=
  { size := 30, rect := { x := 440, y := 480, w := 30, h := 30 },
    speed := 100, health := 1, active := true }

/-- A concrete active enemy overlapping neither `bC1` nor the player. -/
def eFar : Enemy :=
  { size := 30, rect := { x := 100, y := 100, w := 30, h := 30 },
    speed := 100, health := 1, active := true }

/-- Concrete running game: one active bullet overlapping one active enemy,
second bullet slot free, nothing else in flight. -/
def gC1 : Game :=
  { running := true, fullscreen := false, player := Player.init,
    bullets := [bC1, Bullet.init], enemies := [eC1],
    enemy_timer := 0, score := 5, paused := false, game_over := false,
    stars := [] }

/-- The exact firing condition of `Game.update`: not paused or over, the
fire input (space or up) held, and the cooldown timer — as read after this
frame's `Player.update` has already decreased it — is ≤ 0. -/
def firesNow (g : Game) (dt : ℚ) (keys : Keys) : Bool :=
  !g.paused && !g.game_over && (keys.space || keys.up) &&
    decide ((g.player.update dt keys).shoot_timer ≤ 0)

/-- Concrete system state: flag and display both fullscreen. -/
def sysFsW : Sys :=
  { game := { gOverW with fullscreen := true }, display := DisplayMode.fullscreen }

/-- C8: while the paused flag (or the game_over flag) is set, `update(dt,
input)` returns the state unchanged for any `dt` and any input: player
position and cooldown, every pool slot's activity and position, score,
and the spawn accumulator are all untouched. -/
theorem paused_update_is_identity (g : Game) (dt : ℚ) (keys : Keys)
    (rx ry : Int) (sp : ℚ) (h : g.paused = true ∨ g.game_over = true) :
    g.update dt keys rx ry sp = g := by
  rcases h with h | h <;> simp [Game.update, h]

/-- Witness for `paused_update_is_identity` at a concrete paused state. -/
theorem paused_update_is_identity_witness :
    gPausedW.update (1/30) keysFire 100 20 150 = gPausedW :=
  paused_update_is_identity gPausedW (1/30) keysFire 100 20 150 (Or.inl rfl)

/-- C9: `restart` from any game-over state rebuilds the whole `GameState`:
the player is `Player.init` (so `lives = 3`), every bullet and enemy slot is
inactive, `score = 0`, the spawn accumulator is `0`, and both `paused` and
`game_over` are false, whatever was accumulated before. -/
theorem restart_resets_everything (g : Game) (h : g.game_over = true)
    (eps : List (Int × ℚ)) (ss : List BgStar) :
    (g.restart eps ss).player = Player.init ∧
    (g.restart eps ss).player.lives = 3 ∧
    (∀ b ∈ (g.restart eps ss).bullets, b.active = false) ∧
    (∀ e ∈ (g.restart eps ss).enemies, e.active = false) ∧
    (g.restart eps ss).score = 0 ∧
    (g.restart eps ss).enemy_timer = 0 ∧
    (g.restart eps ss).paused = false ∧
    (g.restart eps ss).game_over = false := by
  refine ⟨rfl, rfl, ?_, ?_, rfl, rfl, rfl, rfl⟩
  · intro b hb
    have := List.eq_of_mem_replicate hb
    subst this; rfl
  · intro e he
    rcases List.mem_map.mp he with ⟨p, _, rfl⟩
    rfl

/-- Witness for `restart_resets_everything` at a concrete game-over state. -/
theorem restart_resets_everything_witness :
    (gOverW.restart [(30, 100)] []).player = Player.init ∧
    (gOverW.restart [(30, 100)] []).player.lives = 3 ∧
    (∀ b ∈ (gOverW.restart [(30, 100)] []).bullets, b.active = false) ∧
    (∀ e ∈ (gOverW.restart [(30, 100)] []).enemies, e.active = false) ∧
    (gOverW.restart [(30, 100)] []).score = 0 ∧
    (gOverW.restart [(30, 100)] []).enemy_timer = 0 ∧
    (gOverW.restart [(30, 100)] []).paused = false ∧
    (gOverW.restart [(30, 100)] []).game_over = false :=
  restart_resets_everything gOverW rfl [(30, 100)] []

/-- C10: restarting while the display is fullscreen resets the `fullscreen`
flag (and `paused`) to false without issuing a display-mode request, so the
flag disagrees with the actual display; the next toggle then requests
fullscreen mode again instead of windowed. -/
theorem restart_desyncs_fullscreen_flag (s : Sys) (eps : List (Int × ℚ))
    (ss : List BgStar) (h1 : s.game.fullscreen = true)
    (h2 : s.display = DisplayMode.fullscreen) :
    (s.restart eps ss).game.fullscreen = false ∧
    (s.restart eps ss).game.paused = false ∧
    (s.restart eps ss).display = DisplayMode.fullscreen ∧
    ((s.restart eps ss).toggle_fullscreen).game.fullscreen = true ∧
    ((s.restart eps ss).toggle_fullscreen).display = DisplayMode.fullscreen := by
  refine ⟨rfl, rfl, ?_, rfl, rfl⟩
  simpa [Sys.restart] using h2

/-- Witness for `restart_desyncs_fullscreen_flag` at a concrete fullscreen
system state. -/
theorem restart_desyncs_fullscreen_flag_witness :
    (sysFsW.restart [(30, 100)] []).game.fullscreen = false ∧
    (sysFsW.restart [(30, 100)] []).game.paused = false ∧
    (sysFsW.restart [(30, 100)] []).display = DisplayMode.fullscreen ∧
    ((sysFsW.restart [(30, 100)] []).toggle_fullscreen).game.fullscreen = true ∧
    ((sysFsW.restart [(30, 100)] []).toggle_fullscreen).display = DisplayMode.fullscreen :=
  restart_desyncs_fullscreen_flag sysFsW [(30, 100)] [] rfl rfl

/-- C4: for every prior x, any `dt ≥ 0` and any key state, the player's x
position right after `Player.update` lies in `[0, WIDTH - playerWidth]`
(the player's width not exceeding the playfield, as it never does). -/
theorem player_x_stays_clamped (p : Player) (dt : ℚ) (keys : Keys)
    (hdt : 0 ≤ dt) (hw : p.rect.w ≤ WIDTH) :
    0 ≤ (p.update dt keys).rect.x ∧
    (p.update dt keys).rect.x ≤ WIDTH - p.rect.w := by
  unfold Player.update clamp
  refine ⟨le_max_left 0 _, max_le ?_ (min_le_left _ _)⟩
  omega

/-- Witness for `player_x_stays_clamped`: fresh player, `dt = 1`, moving
right. -/
theorem player_x_stays_clamped_witness :
    0 ≤ (Player.init.update 1 keysRight).rect.x ∧
    (Player.init.update 1 keysRight).rect.x ≤ WIDTH - Player.init.rect.w :=
  player_x_stays_clamped Player.init 1 keysRight (by norm_num) (by decide)

/-- When every enemy slot is active, the spawn scan finds no slot and
changes nothing. -/
theorem spawnFirstInactive_saturated (es : List Enemy) (rx ry : Int) (sp : ℚ)
    (h : ∀ e ∈ es, e.active = true) : spawnFirstInactive es rx ry sp = es := by
  induction es with
  | nil => rfl
  | cons e rest ih =>
    have he := h e (List.mem_cons_self e rest)
    simp only [spawnFirstInactive, he]
    simp [ih fun e' he' => h e' (List.mem_cons_of_mem e he')]

/-- C6: when the spawn accumulator reaches the threshold while every enemy
in the pool is active, the spawn request is silently dropped — the enemy
list is unchanged by the attempt — yet the accumulator is still reset to
zero. -/
theorem enemy_spawn_dropped_when_saturated (g : Game) (dt : ℚ)
    (rx ry : Int) (sp : ℚ)
    (hall : ∀ e ∈ g.enemies, e.active = true)
    (ht : ENEMY_SPAWN_TIME ≤ g.enemy_timer + dt) :
    (g.spawnPhase dt rx ry sp).enemies = g.enemies ∧
    (g.spawnPhase dt rx ry sp).enemy_timer = 0 := by
  unfold Game.spawnPhase
  rw [if_pos ht]
  exact ⟨spawnFirstInactive_saturated g.enemies rx ry sp hall, rfl⟩

/-- Witness for `enemy_spawn_dropped_when_saturated`: threshold reached with
`dt = 0.1` on a saturated one-slot pool. -/
theorem enemy_spawn_dropped_when_saturated_witness :
    (gSaturated.spawnPhase (1/10) 5 3 120).enemies = gSaturated.enemies ∧
    (gSaturated.spawnPhase (1/10) 5 3 120).enemy_timer = 0 :=
  enemy_spawn_dropped_when_saturated gSaturated (1/10) 5 3 120
    (by intro e he; simp only [gSaturated] at he; simp at he; subst he; rfl)
    (by unfold gSaturated ENEMY_SPAWN_TIME; norm_num)

/-- If some slot is inactive, the linear scan of `Pool.get` finds the first
inactive index: it is in range, the slot there is inactive, and every slot
before it is active. -/
theorem findIdx_first_inactive (pool : List Bullet)
    (h : ∃ b ∈ pool, b.active = false) :
    ∃ i, pool.findIdx? (fun b => !b.active) = some i ∧ i < pool.length ∧
      (pool.getD i Bullet.init).active = false ∧
      ∀ j < i, (pool.getD j Bullet.init).active = true := by
  induction pool with
  | nil => simp at h
  | cons b rest ih =>
    by_cases hb : b.active = false
    · exact ⟨0, by simp [List.findIdx?_cons, hb], by simp, by simpa using hb,
        fun j hj => absurd hj (by omega)⟩
    · have hb' : b.active = true := by revert hb; cases b.active <;> simp
      have hrest : ∃ x ∈ rest, x.active = false := by
        rcases h with ⟨x, hx, hxa⟩
        rcases List.mem_cons.mp hx with rfl | hx'
        · exact absurd hxa (by simp [hb'])
        · exact ⟨x, hx', hxa⟩
      rcases ih hrest with ⟨i, hfind, hlt, hget, hprev⟩
      refine ⟨i + 1, ?_, by simpa using hlt, by simpa using hget, ?_⟩
      · simp [List.findIdx?_cons, hb', hfind]
      · intro j hj
        match j with
        | 0 => simpa using hb'
        | j' + 1 => simpa using hprev j' (by omega)

/-- If every slot is active, the linear scan finds nothing. -/
theorem findIdx_saturated (pool : List Bullet)
    (h : ∀ b ∈ pool, b.active = true) :
    pool.findIdx? (fun b => !b.active) = none := by
  induction pool with
  | nil => rfl
  | cons b rest ih =>
    have hb := h b (List.mem_cons_self b rest)
    simp [List.findIdx?_cons, hb,
      ih fun b' hb' => h b' (List.mem_cons_of_mem b hb')]

/-- C5: bullet acquisition never fails.  When an inactive slot exists,
`Pool.get` hands out the first one in index order and leaves the pool as
is; when every slot is active it recycles slot 0; and on a capacity-2 pool
a third `shoot` after two shots (nothing having deactivated) reuses slot 0
rather than erroring. -/
theorem bullet_pool_acquire_policy :
    (∀ pool : List Bullet, (∃ b ∈ pool, b.active = false) →
      (poolGet pool).2 = pool ∧
      (poolGet pool).1 < pool.length ∧
      (pool.getD (poolGet pool).1 Bullet.init).active = false ∧
      ∀ j < (poolGet pool).1, (pool.getD j Bullet.init).active = true) ∧
    (∀ pool : List Bullet, (∀ b ∈ pool, b.active = true) →
      poolGet pool =
        (0, listModify pool 0 (fun b => { b with active := false }))) ∧
    ((poolGet (gCap2.shoot).bullets).1 = 1 ∧
     (poolGet ((gCap2.shoot).shoot).bullets).1 = 0 ∧
     activeCount (((gCap2.shoot).shoot).shoot).bullets = 2 ∧
     ((((gCap2.shoot).shoot).shoot).bullets.getD 0 Bullet.init).active = true) := by
  refine ⟨?_, ?_, ?_⟩
  · intro pool h
    rcases findIdx_first_inactive pool h with ⟨i, hfind, hlt, hget, hprev⟩
    unfold poolGet
    rw [hfind]
    exact ⟨rfl, hlt, hget, hprev⟩
  · intro pool h
    unfold poolGet
    rw [findIdx_saturated pool h]
  · with_unfolding_all decide

/-- Witness for `bullet_pool_acquire_policy`: a pool with slot 1 inactive
hands out slot 1 unchanged; a fully active pool recycles slot 0. -/
theorem bullet_pool_acquire_policy_witness :
    ((poolGet poolW1).2 = poolW1 ∧
     (poolGet poolW1).1 < poolW1.length ∧
     (poolW1.getD (poolGet poolW1).1 Bullet.init).active = false ∧
     ∀ j < (poolGet poolW1).1, (poolW1.getD j Bullet.init).active = true) ∧
    poolGet poolW2 =
      (0, listModify poolW2 0 (fun b => { b with active := false })) :=
  ⟨bullet_pool_acquire_policy.1 poolW1 ⟨Bullet.init, by simp [poolW1], rfl⟩,
   bullet_pool_acquire_policy.2.1 poolW2
     (by intro b hb; rcases List.mem_cons.mp hb with rfl | hb' <;> simp_all [poolW2])⟩

/-- C2 counterexample: movement is NOT `speed * dt` and NOT frame-rate
independent.  With `dt = 1/1024 s` (exact in IEEE doubles) an active bullet
moves `int(900/1024) = 0` pixels, not `900/1024`; and two `1/1024 s` frames
move it 0 pixels while a single `1/512 s` frame moves it 1 pixel. -/
theorem movement_not_dt_scaled_cex :
    ((bulletC2.update (1/1024)).rect.y : ℚ) ≠
      (bulletC2.rect.y : ℚ) - bulletC2.speed * (1/1024) ∧
    ((bulletC2.update (1/1024)).update (1/1024)).rect.y ≠
      (bulletC2.update (1/512)).rect.y := by
  constructor
  · with_unfolding_all decide
  · with_unfolding_all decide

/-- C2 amended: per `update` call, a Bullet moves up and an Enemy moves down
by exactly `int(speed * dt)` pixels (truncation toward zero) and the Player
moves by `int(vx * speed * dt)` then clamps — integer-pixel steps that are
not `speed * dt` in general — while a Star (float position) moves by exactly
`speed * dt` and, absent wrap-around, its motion is additive over frame
splits. -/
theorem movement_truncation_amended (dt : ℚ) (hdt : 0 ≤ dt) :
    (∀ b : Bullet, b.active = true →
      (b.update dt).rect.y = b.rect.y - pyint (b.speed * dt)) ∧
    (∀ e : Enemy, e.active = true →
      (e.update dt).rect.y = e.rect.y + pyint (e.speed * dt)) ∧
    (∀ (p : Player) (keys : Keys),
      (p.update dt keys).rect.x =
        clamp (p.rect.x + pyint ((playerVx keys : ℚ) * p.speed * dt)) 0
          (WIDTH - p.rect.w)) ∧
    (∀ (s : BgStar) (rnd : StarRnd), s.y + s.speed * dt ≤ (HEIGHT : ℚ) →
      (s.update dt rnd).y = s.y + s.speed * dt) ∧
    (∀ (s : BgStar) (rnd1 rnd2 rnd3 : StarRnd) (dt2 : ℚ), 0 ≤ dt2 →
      0 ≤ s.speed → s.y + s.speed * (dt + dt2) ≤ (HEIGHT : ℚ) →
      ((s.update dt rnd1).update dt2 rnd2).y = (s.update (dt + dt2) rnd3).y) := by
  refine ⟨?_, ?_, ?_, ?_, ?_⟩
  · intro b hb
    simp only [Bullet.update, hb, Bool.not_true, Bool.false_eq_true, if_false]
    split <;> rfl
  · intro e he
    simp only [Enemy.update, he, Bool.not_true, Bool.false_eq_true, if_false]
    split <;> rfl
  · intro p keys
    rfl
  · intro s rnd h
    simp only [BgStar.update]
    rw [if_neg (not_lt.mpr h)]
  · intro s rnd1 rnd2 rnd3 dt2 h2 hsp h600
    have hstep : s.speed * dt ≤ s.speed * (dt + dt2) := by
      have := mul_nonneg hsp h2
      nlinarith
    have h1 : s.y + s.speed * dt ≤ (HEIGHT : ℚ) := by linarith
    simp only [BgStar.update]
    rw [if_neg (not_lt.mpr h1)]
    have h2' : s.y + s.speed * dt + s.speed * dt2 ≤ (HEIGHT : ℚ) := by
      have : s.y + s.speed * (dt + dt2) = s.y + s.speed * dt + s.speed * dt2 := by
        ring
      linarith [this ▸ h600]
    rw [if_neg (not_lt.mpr h2'), if_neg (not_lt.mpr h600)]
    ring

/-- Witness for `movement_truncation_amended` at `dt = 1/2` with concrete
bullet, enemy, player, and star. -/
theorem movement_truncation_amended_witness :
    (bulletC2.update (1/2)).rect.y =
      bulletC2.rect.y - pyint (bulletC2.speed * (1/2)) ∧
    (eOnPlayerA.update (1/2)).rect.y =
      eOnPlayerA.rect.y + pyint (eOnPlayerA.speed * (1/2)) ∧
    (Player.init.update (1/2) keysRight).rect.x =
      clamp (Player.init.rect.x +
        pyint ((playerVx keysRight : ℚ) * Player.init.speed * (1/2))) 0
        (WIDTH - Player.init.rect.w) ∧
    (starW.update (1/2) rndW).y = starW.y + starW.speed * (1/2) ∧
    ((starW.update (1/2) rndW).update (1/4) rndW).y =
      (starW.update (1/2 + 1/4) rndW).y := by
  have h := movement_truncation_amended (1/2) (by norm_num)
  exact ⟨h.1 bulletC2 rfl, h.2.1 eOnPlayerA rfl, h.2.2.1 Player.init keysRight,
    h.2.2.2.1 starW rndW (by unfold starW HEIGHT; norm_num),
    h.2.2.2.2 starW rndW rndW rndW (1/4) (by norm_num)
      (by unfold starW; norm_num) (by unfold starW HEIGHT; norm_num)⟩

/-- C3 counterexample: lives CAN drop below 0.  From a reachable state with
1 life and two active enemies overlapping the player, a single
(non-paused) `update` call leaves `lives = -1` (and sets game over). -/
theorem lives_can_go_negative_cex :
    (gTwoHits.update 0 keysNone 0 0 100).player.lives = -1 ∧
    (gTwoHits.update 0 keysNone 0 0 100).game_over = true := by
  constructor <;> with_unfolding_all decide

/-- C3 amended: the enemy–player pass decrements lives once per active
overlapping enemy with no lower bound — `lives' = lives − #hits` — keeping
the player's rectangle and cooldown, and the game-over flag ends up set iff
it already was or at least one hit occurred and the final lives are ≤ 0. -/
theorem lives_decrement_characterization (es : List Enemy) (p : Player)
    (gover : Bool) :
    (enemyPlayerPhase es p gover).2.1.lives =
      p.lives - es.countP (hitBy p) ∧
    (enemyPlayerPhase es p gover).2.1.rect = p.rect ∧
    (enemyPlayerPhase es p gover).2.1.shoot_timer = p.shoot_timer ∧
    ((enemyPlayerPhase es p gover).2.2 = true ↔
      gover = true ∨
        (1 ≤ es.countP (hitBy p) ∧
          p.lives - (es.countP (hitBy p) : Int) ≤ 0)) := by
  induction es generalizing p gover with
  | nil => simp [enemyPlayerPhase]
  | cons e rest ih =>
    by_cases hhit : hitBy p e = true
    · have hcond : (e.active && e.rect.colliderect p.rect) = true := hhit
      simp only [enemyPlayerPhase, hcond, if_true]
      have hrw : hitBy { p with lives := p.lives - 1 } = hitBy p := by
        funext e'; simp [hitBy]
      by_cases hlow : p.lives - 1 ≤ 0
      · rw [if_pos hlow]
        rcases ih { p with lives := p.lives - 1 } true with ⟨hl, hr, hs, hg⟩
        rw [hrw] at hl hg
        refine ⟨?_, by simpa using hr, by simpa using hs, ?_⟩
        · rw [hl]
          simp only [List.countP_cons, hhit]
          push_cast
          omega
        · rw [hg]
          dsimp only
          simp only [List.countP_cons, hhit]
          cases gover
          · simp only [if_true, Bool.false_eq_true, false_or, true_or, true_iff]
            push_cast
            refine ⟨trivial, ?_⟩
            omega
          · simp
      · rw [if_neg hlow]
        rcases ih { p with lives := p.lives - 1 } gover with ⟨hl, hr, hs, hg⟩
        rw [hrw] at hl hg
        refine ⟨?_, by simpa using hr, by simpa using hs, ?_⟩
        · rw [hl]
          simp only [List.countP_cons, hhit]
          push_cast
          omega
        · rw [hg]
          dsimp only
          simp only [List.countP_cons, hhit]
          cases gover
          · simp only [Bool.false_eq_true, false_or]
            push_cast
            constructor <;> intro hcase
            · exact ⟨trivial, by omega⟩
            · rcases hcase with ⟨-, h2⟩
              exact ⟨by omega, by omega⟩
          · simp
    · have hcond : (e.active && e.rect.colliderect p.rect) = false := by
        revert hhit; unfold hitBy; cases (e.active && e.rect.colliderect p.rect) <;>
          simp
      simp only [enemyPlayerPhase, hcond, Bool.false_eq_true, if_false]
      rcases ih p gover with ⟨hl, hr, hs, hg⟩
      have hcnt : (e :: rest).countP (hitBy p) = rest.countP (hitBy p) := by
        simp [List.countP_cons, hhit]
      rw [hcnt]
      exact ⟨hl, hr, hs, hg⟩

/-- The per-bullet enemy scan hits exactly the first active overlapping
enemy: given one exists, the scan deactivates the bullet, reports the 10
point reward, deactivates precisely the enemy at the first hit index and
no other, and every enemy before that index was not an active overlap. -/
theorem resolve_first_hit (b : Bullet) (es : List Enemy)
    (hb : b.active = true) (h : ∃ e ∈ es, hitsB b e = true) :
    (resolveBulletEnemies b es).1 = { b with active := false } ∧
    (resolveBulletEnemies b es).2.2 = 10 ∧
    (resolveBulletEnemies b es).2.1 =
      listModify es (es.findIdx (hitsB b)) (fun e => { e with active := false }) ∧
    es.findIdx (hitsB b) < es.length ∧
    hitsB b (es.getD (es.findIdx (hitsB b)) (Enemy.init 20 80)) = true ∧
    ∀ j < es.findIdx (hitsB b), hitsB b (es.getD j (Enemy.init 20 80)) = false := by
  induction es with
  | nil => simp at h
  | cons e rest ih =>
    by_cases hhit : hitsB b e = true
    · have hpair : e.active = true ∧ e.rect.colliderect b.rect = true := by
        simpa [hitsB, Bool.and_eq_true] using hhit
      have hcond : (e.active && b.active && e.rect.colliderect b.rect) = true := by
        simp [hpair.1, hpair.2, hb]
      simp only [resolveBulletEnemies, hcond, if_true]
      have hidx : (e :: rest).findIdx (hitsB b) = 0 := by
        simp [List.findIdx_cons, hhit]
      rw [hidx]
      exact ⟨trivial, trivial, rfl, by simp, by simpa using hhit,
        fun j hj => absurd hj (by omega)⟩
    · have hcond : (e.active && b.active && e.rect.colliderect b.rect) = false := by
        revert hhit
        unfold hitsB
        cases e.active <;> cases e.rect.colliderect b.rect <;> simp [hb]
      simp only [resolveBulletEnemies, hcond, Bool.false_eq_true, if_false]
      have hrest : ∃ e' ∈ rest, hitsB b e' = true := by
        rcases h with ⟨x, hx, hxa⟩
        rcases List.mem_cons.mp hx with rfl | hx'
        · exact absurd hxa hhit
        · exact ⟨x, hx', hxa⟩
      rcases ih hrest with ⟨h1, h2, h3, h4, h5, h6⟩
      have hidx : (e :: rest).findIdx (hitsB b) = rest.findIdx (hitsB b) + 1 := by
        simp [List.findIdx_cons, hhit]
      rw [hidx]
      refine ⟨h1, h2, ?_, by simpa using h4, by simpa using h5, ?_⟩
      · simpa [listModify] using h3
      · intro j hj
        match j with
        | 0 => simpa using (Bool.not_eq_true _).mp (by simpa [hitsB] using hhit)
        | j' + 1 => simpa using h6 j' (by omega)

/-- C1: an active bullet whose rectangle overlaps at least one active enemy
kills exactly the first such enemy in pool iteration order — both are
deactivated, the reward is exactly 10 points, no later enemy is touched —
and a concrete one-bullet-one-enemy `update` call indeed deactivates both
and raises the score by exactly 10. -/
theorem bullet_kill_first_in_order (b : Bullet) (es : List Enemy)
    (hb : b.active = true) (h : ∃ e ∈ es, hitsB b e = true) :
    ((resolveBulletEnemies b es).1 = { b with active := false } ∧
     (resolveBulletEnemies b es).2.2 = 10 ∧
     (resolveBulletEnemies b es).2.1 =
       listModify es (es.findIdx (hitsB b))
         (fun e => { e with active := false }) ∧
     es.findIdx (hitsB b) < es.length ∧
     hitsB b (es.getD (es.findIdx (hitsB b)) (Enemy.init 20 80)) = true ∧
     ∀ j < es.findIdx (hitsB b), hitsB b (es.getD j (Enemy.init 20 80)) = false) ∧
    ((gC1.update 0 keysNone 0 0 100).score = gC1.score + 10 ∧
     ((gC1.update 0 keysNone 0 0 100).bullets.getD 0 Bullet.init).active = false ∧
     ∀ e ∈ (gC1.update 0 keysNone 0 0 100).enemies, e.active = false) :=
  ⟨resolve_first_hit b es hb h, by with_unfolding_all decide⟩

/-- Witness for `bullet_kill_first_in_order`: the scan over a non-hit enemy
followed by a hit enemy reports index 1. -/
theorem bullet_kill_first_in_order_witness :
    ((resolveBulletEnemies bC1 [eFar, eC1]).1 = { bC1 with active := false } ∧
     (resolveBulletEnemies bC1 [eFar, eC1]).2.2 = 10 ∧
     (resolveBulletEnemies bC1 [eFar, eC1]).2.1 =
       listModify [eFar, eC1] ([eFar, eC1].findIdx (hitsB bC1))
         (fun e => { e with active := false }) ∧
     [eFar, eC1].findIdx (hitsB bC1) < ([eFar, eC1] : List Enemy).length ∧
     hitsB bC1 ([eFar, eC1].getD ([eFar, eC1].findIdx (hitsB bC1))
       (Enemy.init 20 80)) = true ∧
     ∀ j < [eFar, eC1].findIdx (hitsB bC1),
       hitsB bC1 ([eFar, eC1].getD j (Enemy.init 20 80)) = false) ∧
    ((gC1.update 0 keysNone 0 0 100).score = gC1.score + 10 ∧
     ((gC1.update 0 keysNone 0 0 100).bullets.getD 0 Bullet.init).active = false ∧
     ∀ e ∈ (gC1.update 0 keysNone 0 0 100).enemies, e.active = false) :=
  bullet_kill_first_in_order bC1 [eFar, eC1] rfl
    ⟨eC1, by simp, by with_unfolding_all decide⟩

/-- Method `Bullet.update` never activates a bullet. -/
theorem bullet_update_active_mono (b : Bullet) (dt : ℚ) :
    (b.update dt).active = true → b.active = true := by
  unfold Bullet.update
  split
  · exact fun h => h
  · rename_i hcond
    dsimp only
    split
    · intro h
      exact absurd h (by simp)
    · intro _
      revert hcond
      cases b.active <;> simp

/-- Moving the bullets does not increase the number of active ones. -/
theorem activeCount_map_update (bs : List Bullet) (dt : ℚ) :
    activeCount (bs.map (Bullet.update · dt)) ≤ activeCount bs := by
  unfold activeCount
  rw [List.countP_map]
  exact List.countP_mono_left fun b _ h => bullet_update_active_mono b dt h

/-- Mutating one pool slot adds at most one active bullet. -/
theorem activeCount_listModify_le (l : List Bullet) (i : Nat) (f : Bullet → Bullet) :
    activeCount (listModify l i f) ≤ activeCount l + 1 := by
  induction l generalizing i with
  | nil => simp [listModify, activeCount]
  | cons x xs ih =>
    match i with
    | 0 =>
      simp only [listModify, activeCount, List.countP_cons]
      have := ih 0
      split <;> split <;> omega
    | n + 1 =>
      simp only [listModify, activeCount, List.countP_cons]
      have := ih n
      unfold activeCount at this
      omega

/-- Forcing slot 0 inactive does not increase the active count. -/
theorem activeCount_listModify_deactivate (l : List Bullet) :
    activeCount (listModify l 0 (fun b => { b with active := false })) ≤
      activeCount l := by
  cases l with
  | nil => simp [listModify]
  | cons x xs =>
    simp only [listModify, activeCount, List.countP_cons]
    dsimp only
    simp only [Bool.false_eq_true, if_false]
    split <;> omega

/-- Method `Game.shoot` activates at most one bullet (one slot is touched). -/
theorem shoot_activeCount (g : Game) :
    activeCount (g.shoot).bullets ≤ activeCount g.bullets + 1 := by
  unfold Game.shoot poolGet
  cases hf : g.bullets.findIdx? (fun b => !b.active) with
  | some i =>
    simpa using activeCount_listModify_le g.bullets i _
  | none =>
    simp only
    calc activeCount (listModify
          (listModify g.bullets 0 (fun b => { b with active := false })) 0 _) ≤
        activeCount (listModify g.bullets 0 (fun b => { b with active := false })) + 1 :=
          activeCount_listModify_le _ 0 _
      _ ≤ activeCount g.bullets + 1 :=
          Nat.add_le_add_right (activeCount_listModify_deactivate g.bullets) 1

/-- The per-bullet scan either leaves the bullet alone or deactivates it. -/
theorem resolve_bullet_cases (b : Bullet) (es : List Enemy) :
    (resolveBulletEnemies b es).1 = b ∨
    (resolveBulletEnemies b es).1 = { b with active := false } := by
  induction es with
  | nil => exact Or.inl rfl
  | cons e rest ih =>
    unfold resolveBulletEnemies
    split
    · exact Or.inr rfl
    · exact ih

/-- The bullet–enemy pass never activates a bullet. -/
theorem bulletEnemyPhase_activeCount (bs : List Bullet) (es : List Enemy)
    (sc : Int) :
    activeCount (bulletEnemyPhase bs es sc).1 ≤ activeCount bs := by
  induction bs generalizing es sc with
  | nil => simp [bulletEnemyPhase]
  | cons b rest ih =>
    unfold bulletEnemyPhase
    by_cases hb : b.active = true
    · simp only [hb, if_true]
      simp only [activeCount, List.countP_cons]
      have h1 := ih (resolveBulletEnemies b es).2.1 (sc + (resolveBulletEnemies b es).2.2)
      unfold activeCount at h1
      rcases resolve_bullet_cases b es with hc | hc <;> rw [hc] <;> split <;>
        simp_all <;> omega
    · have hb' : b.active = false := by revert hb; cases b.active <;> simp
      simp only [hb', Bool.false_eq_true, if_false]
      simp only [activeCount, List.countP_cons, hb']
      have h1 := ih es sc
      unfold activeCount at h1
      simp only [Bool.false_eq_true, if_false]
      omega

/-- The spawn step never touches the bullet pool or the player. -/
theorem spawnPhase_bullets_player (g : Game) (dt : ℚ) (rx ry : Int) (sp : ℚ) :
    (g.spawnPhase dt rx ry sp).bullets = g.bullets ∧
    (g.spawnPhase dt rx ry sp).player = g.player ∧
    (g.spawnPhase dt rx ry sp).paused = g.paused ∧
    (g.spawnPhase dt rx ry sp).game_over = g.game_over := by
  simp only [Game.spawnPhase, Game.spawn_enemy]
  split <;> exact ⟨rfl, rfl, rfl, rfl⟩

/-- The enemy–player pass keeps the player's cooldown timer. -/
theorem enemyPlayerPhase_shoot_timer (es : List Enemy) (p : Player)
    (gover : Bool) :
    (enemyPlayerPhase es p gover).2.1.shoot_timer = p.shoot_timer := by
  induction es generalizing p gover with
  | nil => rfl
  | cons e rest ih =>
    unfold enemyPlayerPhase
    split
    · exact ih { p with lives := p.lives - 1 } _
    · exact ih p gover

/-- When the firing condition fails (no fire input held, or the cooldown
still positive, or the game paused/over), `update` activates no bullet:
the number of active bullets cannot grow. -/
theorem update_bullets_no_fire (g : Game) (dt : ℚ) (keys : Keys)
    (rx ry : Int) (sp : ℚ) (h : firesNow g dt keys = false) :
    activeCount (g.update dt keys rx ry sp).bullets ≤ activeCount g.bullets := by
  simp only [Game.update]
  by_cases hp : (g.paused || g.game_over) = true
  · rw [if_pos hp]
  · rw [if_neg hp]
    have hpf : g.paused = false ∧ g.game_over = false := by
      revert hp; cases g.paused <;> cases g.game_over <;> simp
    have hs : ((keys.space || keys.up) &&
        decide ((g.player.update dt keys).shoot_timer ≤ 0)) = false := by
      revert h
      unfold firesNow
      rw [hpf.1, hpf.2]
      simp
    dsimp only
    rw [hs]
    simp only [Bool.false_eq_true, if_false]
    rw [(spawnPhase_bullets_player _ dt rx ry sp).1]
    dsimp only
    exact le_trans (bulletEnemyPhase_activeCount _ _ _)
      (activeCount_map_update g.bullets dt)

/-- One `update` call activates at most one bullet, unconditionally. -/
theorem update_bullets_le_succ (g : Game) (dt : ℚ) (keys : Keys)
    (rx ry : Int) (sp : ℚ) :
    activeCount (g.update dt keys rx ry sp).bullets ≤
      activeCount g.bullets + 1 := by
  by_cases hfire : firesNow g dt keys = false
  · exact Nat.le_succ_of_le (update_bullets_no_fire g dt keys rx ry sp hfire)
  · have hf : firesNow g dt keys = true := by
      revert hfire; cases firesNow g dt keys <;> simp
    have hpf : g.paused = false ∧ g.game_over = false := by
      revert hf; unfold firesNow; cases g.paused <;> cases g.game_over <;> simp
    have hs : ((keys.space || keys.up) &&
        decide ((g.player.update dt keys).shoot_timer ≤ 0)) = true := by
      revert hf; unfold firesNow; rw [hpf.1, hpf.2]; simp
    simp only [Game.update]
    rw [if_neg (by simp [hpf.1, hpf.2])]
    dsimp only
    rw [hs]
    rw [if_pos rfl]
    rw [(spawnPhase_bullets_player _ dt rx ry sp).1]
    dsimp only
    refine le_trans (bulletEnemyPhase_activeCount _ _ _) ?_
    refine le_trans (activeCount_map_update _ dt) ?_
    exact shoot_activeCount _

/-- When `update` fires a shot, the cooldown timer of the resulting state
is exactly `FIRE_RATE` (nothing later in the frame touches it). -/
theorem update_timer_after_fire (g : Game) (dt : ℚ) (keys : Keys)
    (rx ry : Int) (sp : ℚ) (h : firesNow g dt keys = true) :
    (g.update dt keys rx ry sp).player.shoot_timer = FIRE_RATE := by
  have hpf : g.paused = false ∧ g.game_over = false := by
    revert h; unfold firesNow; cases g.paused <;> cases g.game_over <;> simp
  have hs : ((keys.space || keys.up) &&
      decide ((g.player.update dt keys).shoot_timer ≤ 0)) = true := by
    revert h; unfold firesNow; rw [hpf.1, hpf.2]; simp
  simp only [Game.update]
  rw [if_neg (by simp [hpf.1, hpf.2])]
  dsimp only
  rw [hs]
  rw [if_pos rfl]
  rw [enemyPlayerPhase_shoot_timer]
  rw [(spawnPhase_bullets_player _ dt rx ry sp).2.1]
  rfl

/-- Having fired with `dt = 0.05 s` and interval `FIRE_RATE = 0.16 s`, the
next frame 0.05 s later cannot fire again: the decremented cooldown is
`0.16 − 0.05 = 0.11 > 0`. -/
theorem firesNow_after_fire (g : Game) (keys keys2 : Keys)
    (rx ry : Int) (sp : ℚ) (h : firesNow g (1/20) keys = true) :
    firesNow (g.update (1/20) keys rx ry sp) (1/20) keys2 = false := by
  have ht := update_timer_after_fire g (1/20) keys rx ry sp h
  unfold firesNow
  have htimer :
      (((g.update (1/20) keys rx ry sp).player.update (1/20) keys2)).shoot_timer =
        max 0 (FIRE_RATE - 1/20) := by
    simp only [Player.update]
    rw [ht]
  rw [htimer]
  have hpos : ¬(max 0 (FIRE_RATE - 1/20) ≤ 0) := by
    have h1 : (0:ℚ) < FIRE_RATE - 1/20 := by unfold FIRE_RATE; norm_num
    exact not_le.mpr (lt_max_of_lt_right h1)
  simp only [hpos, decide_eq_false_iff_not, Bool.and_false]
  simp

/-- C7: a shot fires only when the fire input is held and the (already
decremented) cooldown is ≤ 0 — otherwise the active-bullet count cannot
grow; firing resets the cooldown to `FIRE_RATE`; consequently two `update`
calls 0.05 s apart (interval 0.16 s) activate at most one bullet in total,
whatever else happens. -/
theorem fire_rate_cap :
    (∀ (g : Game) (dt : ℚ) (keys : Keys) (rx ry : Int) (sp : ℚ),
      firesNow g dt keys = false →
        activeCount (g.update dt keys rx ry sp).bullets ≤
          activeCount g.bullets) ∧
    (∀ (g : Game) (dt : ℚ) (keys : Keys) (rx ry : Int) (sp : ℚ),
      firesNow g dt keys = true →
        (g.update dt keys rx ry sp).player.shoot_timer = FIRE_RATE) ∧
    (∀ (g : Game) (keys keys2 : Keys) (rx ry rx2 ry2 : Int) (sp sp2 : ℚ),
      activeCount
          (((g.update (1/20) keys rx ry sp).update (1/20) keys2 rx2 ry2
            sp2)).bullets ≤
        activeCount g.bullets + 1) := by
  refine ⟨update_bullets_no_fire, update_timer_after_fire, ?_⟩
  intro g keys keys2 rx ry rx2 ry2 sp sp2
  by_cases hf : firesNow g (1/20) keys = true
  · have h2 := firesNow_after_fire g keys keys2 rx ry sp hf
    exact le_trans (update_bullets_no_fire _ (1/20) keys2 rx2 ry2 sp2 h2)
      (update_bullets_le_succ g (1/20) keys rx ry sp)
  · have hf' : firesNow g (1/20) keys = false := by
      revert hf; cases firesNow g (1/20) keys <;> simp
    exact le_trans (update_bullets_le_succ _ (1/20) keys2 rx2 ry2 sp2)
      (Nat.add_le_add_right
        (update_bullets_no_fire g (1/20) keys rx ry sp hf') 1)

/-- Witness for `fire_rate_cap`: with nothing pressed no bullet activates;
with fire held and cooldown elapsed the timer resets to `FIRE_RATE`. -/
theorem fire_rate_cap_witness :
    activeCount (gC1.update 1 keysNone 0 0 100).bullets ≤
      activeCount gC1.bullets ∧
    (gCap2.update 1 keysFire 0 0 100).player.shoot_timer = FIRE_RATE :=
  ⟨fire_rate_cap.1 gC1 1 keysNone 0 0 100 (by with_unfolding_all decide),
   fire_rate_cap.2.1 gCap2 1 keysFire 0 0 100 (by with_unfolding_all decide)⟩
